import Mathlib

/-!
Shallow embedding of the Cobbler XML-RPC client `CobblerAction`
(src/cobbler.py) of the laas-reflab repository.

The remote Cobbler server is modelled as an explicit state
(`RpcState`): catalogs of distros, profiles and committed systems,
plus the open (uncommitted) system handles.  Every remote call made
by the client is recorded in an RPC trace inside the state, so that
claims about which remote calls a workflow issues are statable.
Remote-call failures are injected through an `Oracle` that may make
any individual RPC raise; `noFail` is the oracle under which every
remote call succeeds.

Python dynamic values appearing in payloads are embedded as `Val`
(strings, booleans and string-keyed dicts); Python exceptions are
embedded as `PyErr`.  Each client method becomes a function
`RpcState -> Except PyErr A × RpcState`: the `Except` component is
the returned value or the exception propagated to the caller, and
the state component carries the server state and the trace (side
effects performed before an exception are kept).  `add_system`
takes its payload already parsed (the `json.loads` step is outside
the scope of the claims, which all use parsed payloads).
-/

namespace Cobbler

/-- A Python value as it appears in a system-definition payload or in a
field of a system record: a string, a boolean, or a string-keyed dict. -/
inductive Val where
  | str : String → Val
  | vbool : Bool → Val
  | vdict : List (String × Val) → Val

/-- A Python exception, as raised by the embedded client code. -/
inductive PyErr where
  | keyError : String → PyErr
  | typeError : String → PyErr
  | attrError : String → PyErr
  | rpcError : String → PyErr
deriving DecidableEq

/-- One remote XML-RPC call issued by the client. -/
inductive RPC where
  | getProfiles : RPC
  | getSystems : RPC
  | getDistros : RPC
  | removeSystem : Val → RPC
  | newSystem : RPC
  | modifySystem : Nat → String → Val → RPC
  | saveSystem : Nat → RPC
  | getSystemHandle : String → RPC

/-- A distro record on the server (only the fields the client reads). -/
structure Distro where
  name : String
  arch : String
deriving DecidableEq

/-- A profile record on the server (only the fields the client reads). -/
structure Profile where
  name : String
  distro : String
deriving DecidableEq

/-- A system record: the fields of a (committed or in-progress) system,
as a Python dict in insertion order. -/
abbrev Record := List (String × Val)

/-- The modelled server state plus the accumulated RPC trace. -/
structure RpcState where
  distros : List Distro
  profiles : List Profile
  systems : List Record
  handles : List (Nat × Record)
  nextHandle : Nat
  trace : List RPC

/-- Failure injection: `some msg` makes that remote call raise. -/
abbrev Oracle := RPC → Option String

/-- The oracle under which every remote call succeeds. -/
def noFail : Oracle := fun _ => none

/-- Python dict lookup on a record (first binding wins). -/
def lookupField (k : String) : Record → Option Val
  | [] => none
  | (k2, v) :: rest => if k2 == k then some v else lookupField k rest

/-- Python dict assignment on a record: replace in place, else append. -/
def setField (k : String) (v : Val) : Record → Record
  | [] => [(k, v)]
  | (k2, w) :: rest =>
      if k2 == k then (k2, v) :: rest else (k2, w) :: setField k v rest

/-- Python `v == s` where `v` is a dynamic value and `s` a string:
true exactly when `v` is the string `s` (a non-string never equals a
string in Python). -/
def valIsStr (v : Val) (s : String) : Bool :=
  match v with
  | .str t => t == s
  | _ => false

mutual

/-- Python `==` on embedded dynamic values. -/
def Val.beq : Val → Val → Bool
  | .str a, .str b => a == b
  | .vbool a, .vbool b => a == b
  | .vdict a, .vdict b => beqEntries a b
  | _, _ => false

/-- Python `==` on dict entry lists, pointwise in order. -/
def beqEntries : List (String × Val) → List (String × Val) → Bool
  | [], [] => true
  | (k1, v1) :: r1, (k2, v2) :: r2 =>
      k1 == k2 && Val.beq v1 v2 && beqEntries r1 r2
  | _, _ => false

end

/-- Record the RPC in the trace. -/
def emit (r : RPC) (st : RpcState) : RpcState :=
  { st with trace := st.trace ++ [r] }

/-- Issue a remote call: it is always recorded in the trace; the oracle
decides whether it raises. -/
def call (ω : Oracle) (r : RPC) (st : RpcState) :
    Except PyErr Unit × RpcState :=
  match ω r with
  | some msg => (.error (.rpcError msg), emit r st)
  | none => (.ok (), emit r st)

/-- Sequencing of embedded computations: propagate an exception,
otherwise continue with the value and the updated state. -/
def mseq {α β : Type} (x : Except PyErr α × RpcState)
    (f : α → RpcState → Except PyErr β × RpcState) :
    Except PyErr β × RpcState :=
  match x with
  | (.error e, st) => (.error e, st)
  | (.ok a, st) => f a st

/-- Remote `get_systems`: returns the committed system records. -/
def getSystemsOp (ω : Oracle) (st : RpcState) :
    Except PyErr (List Record) × RpcState :=
  mseq (call ω .getSystems st) fun _ st2 => (.ok st.systems, st2)

/-- Remote `get_profiles`: returns the profile records. -/
def getProfilesOp (ω : Oracle) (st : RpcState) :
    Except PyErr (List Profile) × RpcState :=
  mseq (call ω .getProfiles st) fun _ st2 => (.ok st.profiles, st2)

/-- Remote `get_distros`: returns the distro records. -/
def getDistrosOp (ω : Oracle) (st : RpcState) :
    Except PyErr (List Distro) × RpcState :=
  mseq (call ω .getDistros st) fun _ st2 => (.ok st.distros, st2)

/-- The list comprehension `[ system[ 'name' ] for system in systems ]`:
projects the `name` field of each record, raising `KeyError` at the
first record that has none. -/
def projectNames : List Record → Except PyErr (List Val)
  | [] => .ok []
  | s :: rest =>
      match lookupField "name" s with
      | none => .error (.keyError "name")
      | some v =>
          match projectNames rest with
          | .error e => .error e
          | .ok vs => .ok (v :: vs)

/-- `CobblerAction.system_names`: fetch all systems, project names. -/
def system_names (ω : Oracle) (st : RpcState) :
    Except PyErr (List Val) × RpcState :=
  mseq (getSystemsOp ω st) fun systems st2 => (projectNames systems, st2)

/-- `CobblerAction.profile_names`. -/
def profile_names (ω : Oracle) (st : RpcState) :
    Except PyErr (List String) × RpcState :=
  mseq (getProfilesOp ω st) fun ps st2 => (.ok (ps.map Profile.name), st2)

/-- `CobblerAction.distro_names`. -/
def distro_names (ω : Oracle) (st : RpcState) :
    Except PyErr (List String) × RpcState :=
  mseq (getDistrosOp ω st) fun ds st2 => (.ok (ds.map Distro.name), st2)

/-- Server-side effect of `remove_system name`: drop committed systems
whose `name` field equals the given value. -/
def removeNamed (n : Val) (systems : List Record) : List Record :=
  systems.filter fun s =>
    match lookupField "name" s with
    | some v => !(Val.beq v n)
    | none => true

/-- The loop body of `purge_systems`: one `remove_system` RPC per name. -/
def removeLoop (ω : Oracle) (names : List Val) (st : RpcState) :
    Except PyErr Unit × RpcState :=
  match names with
  | [] => (.ok (), st)
  | n :: rest =>
      mseq (call ω (.removeSystem n) st) fun _ st2 =>
        removeLoop ω rest { st2 with systems := removeNamed n st2.systems }

/-- `CobblerAction.purge_systems`: fetch the system names once, then
remove each observed name. -/
def purge_systems (ω : Oracle) (st : RpcState) :
    Except PyErr Unit × RpcState :=
  mseq (system_names ω st) fun names st2 => removeLoop ω names st2

/-- `CobblerAction.get_distro`: fetch all distros, return the first
whose name matches, else the absent value. -/
def get_distro (ω : Oracle) (name : String) (st : RpcState) :
    Except PyErr (Option Distro) × RpcState :=
  mseq (getDistrosOp ω st) fun ds st2 =>
    (.ok (ds.find? fun d => d.name == name), st2)

/-- `CobblerAction.get_profile`. -/
def get_profile (ω : Oracle) (name : String) (st : RpcState) :
    Except PyErr (Option Profile) × RpcState :=
  mseq (getProfilesOp ω st) fun ps st2 =>
    (.ok (ps.find? fun p => p.name == name), st2)

/-- The loop of `get_system`: compare the `name` field of each record
to the hostname (`KeyError` on a record with no name field). -/
def findSystem (hostname : String) : List Record → Except PyErr (Option Record)
  | [] => .ok none
  | s :: rest =>
      match lookupField "name" s with
      | none => .error (.keyError "name")
      | some v =>
          if valIsStr v hostname then .ok (some s)
          else findSystem hostname rest

/-- `CobblerAction.get_system`. -/
def get_system (ω : Oracle) (hostname : String) (st : RpcState) :
    Except PyErr (Option Record) × RpcState :=
  mseq (getSystemsOp ω st) fun systems st2 => (findSystem hostname systems, st2)

/-- The loop of `get_default_profile_name`: for each profile, resolve
its distro via `get_distro` (one `get_distros` RPC per profile); when
the resolution yields the absent value, the subscript `[ 'arch' ]` on
`None` raises `TypeError`; on an architecture match return the profile
name, and after the last profile return the sentinel. -/
def defaultProfileLoop (ω : Oracle) (arch : Val) (ps : List Profile)
    (st : RpcState) : Except PyErr String × RpcState :=
  match ps with
  | [] => (.ok "no-profile", st)
  | p :: rest =>
      mseq (get_distro ω p.distro st) fun od st2 =>
        match od with
        | none => (.error (.typeError "NoneType object is not subscriptable"), st2)
        | some d =>
            if valIsStr arch d.arch then (.ok p.name, st2)
            else defaultProfileLoop ω arch rest st2

/-- `CobblerAction.get_default_profile_name`. -/
def get_default_profile_name (ω : Oracle) (arch : Val) (st : RpcState) :
    Except PyErr String × RpcState :=
  mseq (getProfilesOp ω st) fun ps st2 => defaultProfileLoop ω arch ps st2

/-- Remote `new_system`: allocate a fresh, empty, uncommitted handle. -/
def new_system (ω : Oracle) (st : RpcState) : Except PyErr Nat × RpcState :=
  mseq (call ω .newSystem st) fun _ st2 =>
    (.ok st.nextHandle,
      { st2 with
        handles := st2.handles ++ [(st.nextHandle, [])]
        nextHandle := st.nextHandle + 1 })

/-- Set one field of the open handle `h`. -/
def updateHandle (h : Nat) (k : String) (v : Val) :
    List (Nat × Record) → List (Nat × Record)
  | [] => []
  | (h2, r) :: rest =>
      if h2 == h then (h2, setField k v r) :: rest
      else (h2, r) :: updateHandle h k v rest

/-- Remote `modify_system handle field value`: mutate the open handle;
committed systems are untouched until a save. -/
def modify_system (ω : Oracle) (h : Nat) (k : String) (v : Val)
    (st : RpcState) : Except PyErr Unit × RpcState :=
  mseq (call ω (.modifySystem h k v) st) fun _ st2 =>
    (.ok (), { st2 with handles := updateHandle h k v st2.handles })

/-- Two records carry the same system name. -/
def sameName (a b : Record) : Bool :=
  match lookupField "name" a, lookupField "name" b with
  | some v, some w => Val.beq v w
  | _, _ => false

/-- Server-side effect of a save: replace the committed system of the
same name, or append a new one. -/
def commitRecord (r : Record) (systems : List Record) : List Record :=
  if systems.any (sameName r) then
    systems.map fun s => if sameName r s then r else s
  else systems ++ [r]

/-- Remote `save_system handle`: commit the handle into the catalog. -/
def save_system (ω : Oracle) (h : Nat) (st : RpcState) :
    Except PyErr Unit × RpcState :=
  mseq (call ω (.saveSystem h) st) fun _ st2 =>
    match st2.handles.find? (fun p => p.1 == h) with
    | none => (.error (.rpcError "unknown handle"), st2)
    | some p => (.ok (), { st2 with systems := commitRecord p.2 st2.systems })

/-- `CobblerAction.get_system_handle`: the server opens a handle loaded
with the committed record of that hostname (faults when absent). -/
def get_system_handle (ω : Oracle) (hostname : String) (st : RpcState) :
    Except PyErr Nat × RpcState :=
  mseq (call ω (.getSystemHandle hostname) st) fun _ st2 =>
    match st2.systems.find? (fun s =>
        match lookupField "name" s with
        | some v => valIsStr v hostname
        | none => false) with
    | none => (.error (.rpcError "unknown system"), st2)
    | some r =>
        (.ok st2.nextHandle,
          { st2 with
            handles := st2.handles ++ [(st2.nextHandle, r)]
            nextHandle := st2.nextHandle + 1 })

/-- The accumulation loop of `set_system_args`: starting from the empty
string, append one segment per pair. -/
def argString (args : List (String × String)) : String :=
  args.foldl (fun acc p => acc ++ " " ++ p.1 ++ "=" ++ p.2) ""

/-- `CobblerAction.set_system_args`: open the system handle, write the
accumulated string to `kernel_options`, save. -/
def set_system_args (ω : Oracle) (hostname : String)
    (args : List (String × String)) (st : RpcState) :
    Except PyErr Unit × RpcState :=
  mseq (get_system_handle ω hostname st) fun h st2 =>
  mseq (modify_system ω h "kernel_options" (Val.str (argString args)) st2)
    fun _ st3 =>
  save_system ω h st3

/-- `CobblerAction.set_system_profile`. -/
def set_system_profile (ω : Oracle) (hostname : String)
    (profileName : String) (st : RpcState) : Except PyErr Unit × RpcState :=
  mseq (get_system_handle ω hostname st) fun h st2 =>
  mseq (modify_system ω h "profile" (Val.str profileName) st2) fun _ st3 =>
  save_system ω h st3

/-- Payload lookup `system_def[ k ]`: `KeyError` on an absent key. -/
def getKey (sd : Record) (k : String) : Except PyErr Val :=
  match lookupField k sd with
  | some v => .ok v
  | none => .error (.keyError k)

/-- Python `.items()` on a payload value: the entry list of a dict,
`AttributeError` on anything else. -/
def pyItems : Val → Except PyErr (List (String × Val))
  | .vdict entries => .ok entries
  | _ => .error (.attrError "object has no attribute items")

/-- The `for iface in ... .items()` loop of `add_system`: each item is a
(key, value) tuple, and the body immediately subscripts the tuple with
the string key `name`, so the first iteration raises `TypeError`; with
no items the accumulated dict stays empty. -/
def ifacesLoop : List (String × Val) → Except PyErr Record
  | [] => .ok []
  | _ :: _ => .error (.typeError "tuple indices must be integers or slices, not str")

/-- The try-block body of `CobblerAction.add_system`, line by line:
open a fresh handle, then check the schema (reporting the mismatch
reads `server_name`, and concatenating a non-string into the warning
raises `TypeError`); on a well-formed payload set every field, build
the interfaces dict, and save. -/
def add_system_body (ω : Oracle) (sd : Record) (st : RpcState) :
    Except PyErr Unit × RpcState :=
  mseq (new_system ω st) fun sysId st1 =>
  if ((lookupField "arch" sd).isSome && (lookupField "host_ports" sd).isSome) = false then
    match lookupField "server_name" sd with
    | none => (.error (.keyError "server_name"), st1)
    | some (.str _) => (.ok (), st1)
    | some _ => (.error (.typeError "can only concatenate str to str"), st1)
  else
  mseq (getKey sd "arch", st1) fun arch st2 =>
  mseq (getKey sd "server_name", st2) fun serverName st3 =>
  mseq (modify_system ω sysId "name" serverName st3) fun _ st4 =>
  mseq (modify_system ω sysId "hostname" serverName st4) fun _ st5 =>
  mseq (get_default_profile_name ω arch st5) fun profName st6 =>
  mseq (modify_system ω sysId "profile" (Val.str profName) st6) fun _ st7 =>
  mseq (getKey sd "host_ports", st7) fun hp st8 =>
  mseq (pyItems hp, st8) fun entries st9 =>
  mseq (ifacesLoop entries, st9) fun ifaces st10 =>
  mseq (modify_system ω sysId "interfaces" (Val.vdict ifaces) st10) fun _ st11 =>
  mseq (getKey sd "ipmi_fqdn", st11) fun fq st12 =>
  mseq (modify_system ω sysId "power_address" fq st12) fun _ st13 =>
  mseq (getKey sd "ipmi_user", st13) fun us st14 =>
  mseq (modify_system ω sysId "power_user" us st14) fun _ st15 =>
  mseq (getKey sd "ipmi_pass", st15) fun pw st16 =>
  mseq (modify_system ω sysId "power_pass" pw st16) fun _ st17 =>
  mseq (modify_system ω sysId "power_mode" (Val.str "ipmitool") st17) fun _ st18 =>
  mseq (modify_system ω sysId "netboot_enabled" (Val.vbool true) st18) fun _ st19 =>
  save_system ω sysId st19

/-- `CobblerAction.add_system`: the body runs inside
`try ... except Exception as e: return e`, so the method returns the
absent value on completion (including the schema-mismatch early
return) and returns the exception as a value otherwise. -/
def add_system (ω : Oracle) (sd : Record) (st : RpcState) :
    Except PyErr (Option PyErr) × RpcState :=
  match add_system_body ω sd st with
  | (.ok _, st2) => (.ok none, st2)
  | (.error e, st2) => (.ok (some e), st2)

/-- Following the words of the spec: the name of the first profile, in
catalog order, whose resolved distro has architecture `a`, or the
sentinel `no-profile` when no profile matches.  Stated for comparison
with `get_default_profile_name` (refinement). -/
def specDefaultProfile (a : String) (ps : List Profile) (ds : List Distro) : String :=
  match ps.find? (fun p =>
      match ds.find? (fun d => d.name == p.distro) with
      | some d => d.arch == a
      | none => false) with
  | some p => p.name
  | none => "no-profile"

/-- Following the words of the spec: the boot-argument string is the
concatenation, in caller order, of one segment per (name, value) pair.
Stated for comparison with `argString` (refinement). -/
def segmentConcat : List (String × String) → String
  | [] => ""
  | p :: rest => " " ++ p.1 ++ "=" ++ p.2 ++ segmentConcat rest

/-- An empty server state: no catalogs, no handles, empty trace. -/
def st0 : RpcState := ⟨[], [], [], [], 0, []⟩

/-- A payload with `server_name` only: both `arch` and `host_ports`
are missing. -/
def sdMiss : Record := [("server_name", Val.str "h1")]

/-- The payload of the create-workflow success scenario of the spec. -/
def sdFull : Record :=
  [("server_name", Val.str "h1"), ("arch", Val.str "x86_64"),
   ("host_ports", Val.vdict [("eth0", Val.str "AA:BB:CC:DD:EE:FF")]),
   ("ipmi_fqdn", Val.str "bmc1"), ("ipmi_user", Val.str "u"),
   ("ipmi_pass", Val.str "p")]

/-- A catalog holding profile `p1` whose distro `d1` has arch x86_64. -/
def stCat : RpcState := ⟨[⟨"d1", "x86_64"⟩], [⟨"p1", "d1"⟩], [], [], 0, []⟩

/-- A well-formed payload whose `host_ports` dict is empty (the only
shape of `host_ports` on which the interfaces loop terminates without
raising). -/
def sdEmptyPorts : Record :=
  [("server_name", Val.str "h2"), ("arch", Val.str "x86_64"),
   ("host_ports", Val.vdict []),
   ("ipmi_fqdn", Val.str "b"), ("ipmi_user", Val.str "u"),
   ("ipmi_pass", Val.str "p")]

/-- An oracle that makes only the `new_system` call raise. -/
def failNew : Oracle := fun r =>
  match r with
  | .newSystem => some "boom"
  | _ => none

/-- A state whose catalog holds two committed systems named a and b. -/
def stTwoSystems : RpcState :=
  ⟨[], [], [[("name", Val.str "a")], [("name", Val.str "b")]], [], 0, []⟩

/-- A state whose catalog holds one committed system named h1. -/
def stH1 : RpcState :=
  ⟨[], [], [[("name", Val.str "h1")]], [], 0, []⟩

/-- A catalog in which profile q1 resolves to distro d9 (arch arm64)
while profile p2 references a distro absent from the catalog. -/
def stDangling : RpcState :=
  ⟨[⟨"d9", "arm64"⟩], [⟨"q1", "d9"⟩, ⟨"p2", "missing"⟩], [], [], 0, []⟩

/-! ## Basic lemmas about the embedding -/

theorem call_noFail (r : RPC) (st : RpcState) :
    call noFail r st = (Except.ok (), emit r st) := rfl

theorem emit_trace (r : RPC) (st : RpcState) :
    (emit r st).trace = st.trace ++ [r] := rfl

theorem emit_distros (r : RPC) (st : RpcState) :
    (emit r st).distros = st.distros := rfl

theorem emit_systems (r : RPC) (st : RpcState) :
    (emit r st).systems = st.systems := rfl

theorem system_names_noFail (st : RpcState) :
    system_names noFail st = (projectNames st.systems, emit RPC.getSystems st) := rfl

theorem get_distro_noFail (name : String) (st : RpcState) :
    get_distro noFail name st
      = (Except.ok (st.distros.find? fun d => d.name == name),
         emit RPC.getDistros st) := rfl

theorem getProfilesOp_noFail (st : RpcState) :
    getProfilesOp noFail st = (Except.ok st.profiles, emit RPC.getProfiles st) := rfl

/-! ## Claim C1 -/

/-- Claim C1, counterexample: on the payload holding only `server_name`
(both `arch` and `host_ports` missing), run from the empty state,
`add_system` does perform a remote call — the trace is `[new_system]`,
not empty — while still returning the absent value of the
schema-mismatch abort.  This refutes the claim that no remote RPC call
at all is made on a schema-rejected payload. -/
theorem claim_C1_counterexample :
    (add_system noFail sdMiss st0).2.trace = [RPC.newSystem]
    ∧ (add_system noFail sdMiss st0).2.trace ≠ ([] : List RPC)
    ∧ (add_system noFail sdMiss st0).1 = Except.ok none :=
  ⟨rfl, by rw [show (add_system noFail sdMiss st0).2.trace = [RPC.newSystem] from rfl]; simp, rfl⟩

/-- Claim C1, amended: for every payload missing `arch` or `host_ports`
whose `server_name` is a string, and every state, `add_system` aborts
with the schema-mismatch report and returns the absent value after
issuing exactly one remote call — `new_system`, which precedes the
schema check and only allocates an uncommitted handle; no
`modify_system`, `save_system` or further call is issued and the
committed system catalog is unchanged. -/
theorem claim_C1_amended (ω : Oracle) (sd : Record) (st : RpcState)
    (hmiss : lookupField "arch" sd = none ∨ lookupField "host_ports" sd = none)
    (hname : ∃ s, lookupField "server_name" sd = some (Val.str s))
    (hok : ω RPC.newSystem = none) :
    add_system ω sd st =
      (Except.ok none,
        { st with
          trace := st.trace ++ [RPC.newSystem]
          handles := st.handles ++ [(st.nextHandle, [])]
          nextHandle := st.nextHandle + 1 }) := by
  obtain ⟨s, hs⟩ := hname
  have hguard : ((lookupField "arch" sd).isSome
      && (lookupField "host_ports" sd).isSome) = false := by
    rcases hmiss with h | h <;> simp [h]
  simp [add_system, add_system_body, new_system, call, mseq, hok, hguard, hs, emit]

/-- Witness for the amended claim C1 at the concrete rejected payload. -/
theorem claim_C1_amended_witness :
    add_system noFail sdMiss st0 =
      (Except.ok none,
        { st0 with
          trace := st0.trace ++ [RPC.newSystem]
          handles := st0.handles ++ [(st0.nextHandle, [])]
          nextHandle := st0.nextHandle + 1 }) :=
  claim_C1_amended noFail sdMiss st0 (Or.inl rfl) ⟨"h1", rfl⟩ rfl

/-! ## Claim C3 -/

/-- Claim C3: for every payload, every failure oracle and every state,
`add_system` completes with a returned value — possibly an error value,
never a propagated exception: the except component of its result is
always `ok`. -/
theorem claim_C3_no_exception_escapes (ω : Oracle) (sd : Record) (st : RpcState) :
    ∃ v st2, add_system ω sd st = (Except.ok v, st2) := by
  cases h : add_system_body ω sd st with
  | mk r st2 =>
    cases r with
    | error e => exact ⟨some e, st2, by simp [add_system, h]⟩
    | ok a => exact ⟨none, st2, by simp [add_system, h]⟩

/-! ## Claim C2 -/

/-- Claim C2: the spec states that on the payload
`server_name h1, arch x86_64, host_ports (eth0, AA:BB:CC:DD:EE:FF),
ipmi_fqdn bmc1, ipmi_user u, ipmi_pass p` against a catalog holding
profile `p1` of arch x86_64, the workflow commits the system record
and issues the save.  The code instead subscripts the (key, value)
tuple produced by `.items()` with the string key `name`, so the first
loop iteration raises `TypeError`; the exception is returned as a
value, no `save_system` call appears in the trace (it ends at the
`profile` field mutation), and the committed catalog stays empty. -/
theorem claim_C2_interfaces_loop_raises :
    (add_system noFail sdFull stCat).1
      = Except.ok (some (PyErr.typeError "tuple indices must be integers or slices, not str"))
    ∧ (add_system noFail sdFull stCat).2.systems = ([] : List Record)
    ∧ (add_system noFail sdFull stCat).2.trace
      = [RPC.newSystem,
         RPC.modifySystem 0 "name" (Val.str "h1"),
         RPC.modifySystem 0 "hostname" (Val.str "h1"),
         RPC.getProfiles, RPC.getDistros,
         RPC.modifySystem 0 "profile" (Val.str "p1")] :=
  ⟨rfl, rfl, rfl⟩

/-! ## Claim C10 -/

/-- Claim C10: `add_system` returns one and the same value — the absent
value — both when the workflow completes and commits (payload
`sdEmptyPorts` from the empty state: the save is issued and the record
is committed) and when the payload is rejected by the schema check
(payload `sdMiss`: nothing is committed), so the return value alone
cannot distinguish the two; only a genuine exception (here an injected
`new_system` fault) yields a distinct returned error value. -/
theorem claim_C10_return_value_blind :
    (add_system noFail sdEmptyPorts st0).1 = Except.ok none
    ∧ (add_system noFail sdMiss st0).1 = Except.ok none
    ∧ (add_system noFail sdEmptyPorts st0).2.systems
      = [[("name", Val.str "h2"), ("hostname", Val.str "h2"),
          ("profile", Val.str "no-profile"), ("interfaces", Val.vdict []),
          ("power_address", Val.str "b"), ("power_user", Val.str "u"),
          ("power_pass", Val.str "p"), ("power_mode", Val.str "ipmitool"),
          ("netboot_enabled", Val.vbool true)]]
    ∧ (add_system noFail sdEmptyPorts st0).2.trace
      = [RPC.newSystem,
         RPC.modifySystem 0 "name" (Val.str "h2"),
         RPC.modifySystem 0 "hostname" (Val.str "h2"),
         RPC.getProfiles,
         RPC.modifySystem 0 "profile" (Val.str "no-profile"),
         RPC.modifySystem 0 "interfaces" (Val.vdict []),
         RPC.modifySystem 0 "power_address" (Val.str "b"),
         RPC.modifySystem 0 "power_user" (Val.str "u"),
         RPC.modifySystem 0 "power_pass" (Val.str "p"),
         RPC.modifySystem 0 "power_mode" (Val.str "ipmitool"),
         RPC.modifySystem 0 "netboot_enabled" (Val.vbool true),
         RPC.saveSystem 0]
    ∧ (add_system noFail sdMiss st0).2.systems = ([] : List Record)
    ∧ (add_system failNew sdEmptyPorts st0).1
      = Except.ok (some (PyErr.rpcError "boom")) :=
  ⟨rfl, rfl, rfl, rfl, rfl, rfl⟩

/-! ## Claim C5 -/

/-- The accumulator form of the `set_system_args` loop. -/
theorem argString_acc (args : List (String × String)) :
    ∀ acc : String,
      args.foldl (fun acc p => acc ++ " " ++ p.1 ++ "=" ++ p.2) acc
        = acc ++ segmentConcat args := by
  induction args with
  | nil => intro acc; simp [segmentConcat, String.append_empty]
  | cons p rest ih =>
      intro acc
      rw [List.foldl_cons, ih]
      simp [segmentConcat, String.append_assoc]

/-- The trace of a save extends the incoming trace. -/
theorem save_system_trace (ω : Oracle) (h : Nat) (st : RpcState) :
    ∃ l, (save_system ω h st).2.trace = st.trace ++ l := by
  refine ⟨[RPC.saveSystem h], ?_⟩
  unfold save_system call mseq
  cases hω : ω (RPC.saveSystem h) with
  | some msg => rfl
  | none =>
      cases hf : List.find? (fun p => p.1 == h) st.handles with
      | none => simp [hf, emit]
      | some p => simp [hf, emit]

/-- Claim C5: the boot-argument workflow builds the `kernel_options`
string by concatenating, in caller order and verbatim, one segment
per (name, value) pair (`argString` refines `segmentConcat`); whenever
the handle lookup succeeds, the string written by `set_system_args` to
`kernel_options` is exactly `argString args`; and on the concrete input
of the spec the string is the literal of the spec, leading space
included. -/
theorem claim_C5_boot_args :
    (∀ args : List (String × String), argString args = segmentConcat args)
    ∧ (∀ (ω : Oracle) (hostname : String) (args : List (String × String))
         (st st2 : RpcState) (h : Nat),
         get_system_handle ω hostname st = (Except.ok h, st2) →
         RPC.modifySystem h "kernel_options" (Val.str (argString args))
           ∈ (set_system_args ω hostname args st).2.trace)
    ∧ argString [("ip", "dhcp"), ("console", "ttyS0")] = " ip=dhcp console=ttyS0" := by
  refine ⟨fun args => argString_acc args "", ?_, rfl⟩
  intro ω hostname args st st2 h hget
  unfold set_system_args
  rw [hget]
  show RPC.modifySystem h "kernel_options" (Val.str (argString args))
    ∈ (mseq (modify_system ω h "kernel_options" (Val.str (argString args)) st2)
        fun _ st3 => save_system ω h st3).2.trace
  unfold modify_system call
  cases hω : ω (RPC.modifySystem h "kernel_options" (Val.str (argString args))) with
  | some msg =>
      simp [mseq, emit, hω]
  | none =>
      simp only [mseq, hω, emit]
      obtain ⟨l, hl⟩ := save_system_trace ω h
        { st2 with
          handles := updateHandle h "kernel_options" (Val.str (argString args)) st2.handles
          trace := st2.trace ++ [RPC.modifySystem h "kernel_options" (Val.str (argString args))] }
      rw [hl]
      simp

/-- Witness for claim C5 on the input of the spec, against a catalog
holding the system h1: the `kernel_options` mutation carries the exact
literal of the spec. -/
theorem claim_C5_witness :
    RPC.modifySystem 0 "kernel_options" (Val.str " ip=dhcp console=ttyS0")
      ∈ (set_system_args noFail "h1" [("ip", "dhcp"), ("console", "ttyS0")] stH1).2.trace :=
  claim_C5_boot_args.2.1 noFail "h1" [("ip", "dhcp"), ("console", "ttyS0")] stH1 _ 0 rfl

/-! ## Claim C6 -/

/-- Under the failure-free oracle, the purge loop issues exactly one
`remove_system` call per name, in order. -/
theorem removeLoop_noFail (names : List Val) :
    ∀ st : RpcState,
      (removeLoop noFail names st).1 = Except.ok ()
      ∧ (removeLoop noFail names st).2.trace
          = st.trace ++ names.map RPC.removeSystem := by
  induction names with
  | nil => intro st; exact ⟨rfl, by simp [removeLoop]⟩
  | cons n rest ih =>
      intro st
      unfold removeLoop
      rw [call_noFail]
      simp only [mseq]
      refine ⟨(ih _).1, ?_⟩
      rw [(ih _).2]
      simp [emit]

/-- Claim C6: whenever the initial name fetch observes the names `ns`,
`purge_systems` issues a trace of exactly one `get_systems` call
followed by one `remove_system` call per observed name, in order — N
removes for N observed systems, and no remove for any system that is
not in the initially observed list. -/
theorem claim_C6_purge_snapshot (st st2 : RpcState) (ns : List Val)
    (h : system_names noFail st = (Except.ok ns, st2)) :
    (purge_systems noFail st).1 = Except.ok ()
    ∧ (purge_systems noFail st).2.trace
        = st.trace ++ RPC.getSystems :: ns.map RPC.removeSystem := by
  unfold purge_systems
  rw [h]
  simp only [mseq]
  refine ⟨(removeLoop_noFail ns st2).1, ?_⟩
  rw [(removeLoop_noFail ns st2).2]
  have h2 : st2 = emit RPC.getSystems st := by
    rw [system_names_noFail] at h
    have := congrArg Prod.snd h
    simpa using this.symm
  rw [h2]
  simp [emit]

/-- Witness for claim C6 on a catalog of two systems. -/
theorem claim_C6_witness :
    (purge_systems noFail stTwoSystems).1 = Except.ok ()
    ∧ (purge_systems noFail stTwoSystems).2.trace
        = stTwoSystems.trace
            ++ RPC.getSystems :: [Val.str "a", Val.str "b"].map RPC.removeSystem :=
  claim_C6_purge_snapshot stTwoSystems _ [Val.str "a", Val.str "b"] rfl

/-! ## Claim C7 -/

/-- The `get_system` loop returns the absent value when every record
carries a name different from the requested one. -/
theorem findSystem_absent (n : String) :
    ∀ l : List Record,
      (∀ s ∈ l, ∃ v, lookupField "name" s = some v ∧ valIsStr v n = false) →
      findSystem n l = Except.ok none := by
  intro l
  induction l with
  | nil => intro _; rfl
  | cons s rest ih =>
      intro hm
      obtain ⟨v, hv, hvn⟩ := hm s (List.mem_cons_self s rest)
      unfold findSystem
      rw [hv]
      simp only [hvn, Bool.false_eq_true, if_false]
      exact ih fun q hq => hm q (List.mem_cons_of_mem s hq)

/-- Claim C7: when no record of the respective collection matches the
requested name, each of `get_system`, `get_profile` and `get_distro`
returns the absent value — absence is never signalled as an
exception. -/
theorem claim_C7_lookup_absent (n : String) (st : RpcState)
    (hsys : ∀ s ∈ st.systems, ∃ v, lookupField "name" s = some v ∧ valIsStr v n = false)
    (hprof : ∀ p ∈ st.profiles, (p.name == n) = false)
    (hdist : ∀ d ∈ st.distros, (d.name == n) = false) :
    (get_system noFail n st).1 = Except.ok none
    ∧ (get_profile noFail n st).1 = Except.ok none
    ∧ (get_distro noFail n st).1 = Except.ok none := by
  refine ⟨?_, ?_, ?_⟩
  · show findSystem n st.systems = Except.ok none
    exact findSystem_absent n st.systems hsys
  · show Except.ok (st.profiles.find? fun p => p.name == n) = Except.ok none
    rw [List.find?_eq_none.mpr fun x hx => by simp [hprof x hx]]
  · show Except.ok (st.distros.find? fun d => d.name == n) = Except.ok none
    rw [List.find?_eq_none.mpr fun x hx => by simp [hdist x hx]]

/-- Witness for claim C7: a name matching nothing in a populated
catalog. -/
theorem claim_C7_witness :
    (get_system noFail "zzz" stCat).1 = Except.ok none
    ∧ (get_profile noFail "zzz" stCat).1 = Except.ok none
    ∧ (get_distro noFail "zzz" stCat).1 = Except.ok none :=
  claim_C7_lookup_absent "zzz" stCat
    (fun s hs => absurd hs (List.not_mem_nil s)) (by decide) (by decide)

/-! ## Claim C8 -/

/-- Claim C8: when a `system_names` call observes the names `ns`, a
second call run from the resulting state observes exactly the same
ordered names again, and the committed catalog is unchanged by the
read — the read has no side effect that changes its own result. -/
theorem claim_C8_reads_idempotent (st st2 : RpcState) (ns : List Val)
    (h : system_names noFail st = (Except.ok ns, st2)) :
    (system_names noFail st2).1 = Except.ok ns ∧ st2.systems = st.systems := by
  rw [system_names_noFail] at h
  have hfst : projectNames st.systems = Except.ok ns := by
    have := congrArg Prod.fst h
    simpa using this
  have hsnd : emit RPC.getSystems st = st2 := by
    have := congrArg Prod.snd h
    simpa using this
  constructor
  · show projectNames st2.systems = Except.ok ns
    rw [← hsnd]
    exact hfst
  · rw [← hsnd]
    rfl

/-- Witness for claim C8 on a catalog of two systems. -/
theorem claim_C8_witness :
    (system_names noFail (emit RPC.getSystems stTwoSystems)).1
        = Except.ok [Val.str "a", Val.str "b"]
    ∧ (emit RPC.getSystems stTwoSystems).systems = stTwoSystems.systems :=
  claim_C8_reads_idempotent stTwoSystems (emit RPC.getSystems stTwoSystems)
    [Val.str "a", Val.str "b"] rfl

/-! ## Claim C4 -/

/-- When every scanned profile resolves its distro, the scan loop of
`get_default_profile_name` computes the spec-side first-match
function. -/
theorem defaultProfileLoop_resolved (a : String) (ps : List Profile) :
    ∀ st : RpcState,
      (∀ p ∈ ps, ∃ d ∈ st.distros, d.name = p.distro) →
      (defaultProfileLoop noFail (Val.str a) ps st).1
        = Except.ok (specDefaultProfile a ps st.distros) := by
  induction ps with
  | nil => intro st _; rfl
  | cons p rest ih =>
      intro st hres
      obtain ⟨d, hd, hdn⟩ := hres p (List.mem_cons_self p rest)
      have hsome : (List.find? (fun x => x.name == p.distro) st.distros).isSome :=
        List.find?_isSome.mpr ⟨d, hd, by simp [hdn]⟩
      obtain ⟨d0, hd0⟩ := Option.isSome_iff_exists.mp hsome
      have hrest : ∀ q ∈ rest, ∃ d ∈ st.distros, d.name = q.distro :=
        fun q hq => hres q (List.mem_cons_of_mem p hq)
      unfold defaultProfileLoop
      rw [get_distro_noFail]
      simp only [mseq]
      rw [hd0]
      show (if valIsStr (Val.str a) d0.arch
              then (Except.ok p.name, emit RPC.getDistros st)
              else defaultProfileLoop noFail (Val.str a) rest (emit RPC.getDistros st)).1
          = Except.ok (specDefaultProfile a (p :: rest) st.distros)
      by_cases harch : a = d0.arch
      · have hb : valIsStr (Val.str a) d0.arch = true := by simp [valIsStr, harch]
        simp only [hb, if_true]
        unfold specDefaultProfile
        rw [List.find?_cons]
        simp only [hd0]
        simp [harch]
      · have hb : valIsStr (Val.str a) d0.arch = false := by
          simp only [valIsStr]
          exact beq_eq_false_iff_ne.mpr harch
        simp only [hb, Bool.false_eq_true, if_false]
        rw [ih (emit RPC.getDistros st) hrest]
        show Except.ok (specDefaultProfile a rest st.distros)
            = Except.ok (specDefaultProfile a (p :: rest) st.distros)
        unfold specDefaultProfile
        rw [List.find?_cons]
        simp only [hd0]
        have hf : (d0.arch == a) = false :=
          beq_eq_false_iff_ne.mpr fun hh => harch hh.symm
        simp only [hf]

/-- Claim C4: for every architecture string and every catalog in which
each profile resolves its distro, `get_default_profile_name` returns
(without error) the name of the first profile, in catalog order, whose
distro arch equals the requested one, and the sentinel string
no-profile when no profile matches — as computed by the spec-side
function `specDefaultProfile`. -/
theorem claim_C4_default_profile (a : String) (st : RpcState)
    (hres : ∀ p ∈ st.profiles, ∃ d ∈ st.distros, d.name = p.distro) :
    (get_default_profile_name noFail (Val.str a) st).1
      = Except.ok (specDefaultProfile a st.profiles st.distros) := by
  show (defaultProfileLoop noFail (Val.str a) st.profiles (emit RPC.getProfiles st)).1
      = Except.ok (specDefaultProfile a st.profiles st.distros)
  exact defaultProfileLoop_resolved a st.profiles (emit RPC.getProfiles st) hres

/-- Witness for claim C4 on the concrete catalog with profile p1 over
distro d1 of arch x86_64. -/
theorem claim_C4_witness :
    (get_default_profile_name noFail (Val.str "x86_64") stCat).1
      = Except.ok (specDefaultProfile "x86_64" stCat.profiles stCat.distros) :=
  claim_C4_default_profile "x86_64" stCat (by decide)

/-! ## Claim C9 -/

/-- When every profile scanned before `p` resolves to a distro of a
different architecture and the distro reference of `p` is dangling,
the scan loop raises `TypeError` (the subscript on the absent distro)
instead of reaching the sentinel. -/
theorem defaultProfileLoop_dangling (a : String) (p : Profile) (rest : List Profile) :
    ∀ (pre : List Profile) (st : RpcState),
      (∀ q ∈ pre, ∃ d, List.find? (fun x => x.name == q.distro) st.distros = some d
          ∧ (a == d.arch) = false) →
      List.find? (fun x => x.name == p.distro) st.distros = none →
      (defaultProfileLoop noFail (Val.str a) (pre ++ p :: rest) st).1
        = Except.error (PyErr.typeError "NoneType object is not subscriptable") := by
  intro pre
  induction pre with
  | nil =>
      intro st _ hdang
      simp only [List.nil_append]
      unfold defaultProfileLoop
      rw [get_distro_noFail]
      simp only [mseq]
      rw [hdang]
  | cons q pre ih =>
      intro st hpre hdang
      obtain ⟨d, hd, hda⟩ := hpre q (List.mem_cons_self q pre)
      simp only [List.cons_append]
      unfold defaultProfileLoop
      rw [get_distro_noFail]
      simp only [mseq]
      rw [hd]
      show (if valIsStr (Val.str a) d.arch
              then (Except.ok q.name, emit RPC.getDistros st)
              else defaultProfileLoop noFail (Val.str a) (pre ++ p :: rest)
                     (emit RPC.getDistros st)).1
          = Except.error (PyErr.typeError "NoneType object is not subscriptable")
      have hb : valIsStr (Val.str a) d.arch = false := by
        simp only [valIsStr]
        exact hda
      simp only [hb, Bool.false_eq_true, if_false]
      exact ih (emit RPC.getDistros st)
        (fun r hr => hpre r (List.mem_cons_of_mem q hr)) hdang

/-- Claim C9: `get_default_profile_name` is total only under
referential integrity: when some profile scanned before any
architecture match references a distro absent from the catalog, the
distro lookup yields the absent value and the subsequent `arch`
subscript raises `TypeError` — the call errors instead of returning
the no-profile sentinel. -/
theorem claim_C9_dangling_distro (a : String) (st : RpcState)
    (pre : List Profile) (p : Profile) (rest : List Profile)
    (hsplit : st.profiles = pre ++ p :: rest)
    (hpre : ∀ q ∈ pre, ∃ d, List.find? (fun x => x.name == q.distro) st.distros = some d
        ∧ (a == d.arch) = false)
    (hdang : List.find? (fun x => x.name == p.distro) st.distros = none) :
    (get_default_profile_name noFail (Val.str a) st).1
      = Except.error (PyErr.typeError "NoneType object is not subscriptable") := by
  show (defaultProfileLoop noFail (Val.str a) st.profiles (emit RPC.getProfiles st)).1
      = Except.error (PyErr.typeError "NoneType object is not subscriptable")
  rw [hsplit]
  exact defaultProfileLoop_dangling a p rest pre (emit RPC.getProfiles st) hpre hdang

/-- Witness for claim C9 on the concrete catalog in which q1 resolves
to a non-matching distro and p2 dangles. -/
theorem claim_C9_witness :
    (get_default_profile_name noFail (Val.str "x86_64") stDangling).1
      = Except.error (PyErr.typeError "NoneType object is not subscriptable") :=
  claim_C9_dangling_distro "x86_64" stDangling [⟨"q1", "d9"⟩] ⟨"p2", "missing"⟩ [] rfl
    (by
      intro q hq
      simp only [List.mem_singleton] at hq
      subst hq
      exact ⟨⟨"d9", "arm64"⟩, rfl, rfl⟩)
    rfl

end Cobbler
